import Mathlib

/-!
Verification of the runtime core of the contract-driven testing system:
the Mock Request Router (`mock_server/server.py`) and the Scenario
Execution Engine (`test_executor/runner.py`, `test_executor/http_executor.py`).

The Python code is shallowly embedded: Python `dict`/`list`/`str`/`int`
values in JSON-like positions are modelled by the mutual inductive
`Value`/`ValueL`/`ValueD`; machine floats (elapsed milliseconds, assertion
thresholds) are modelled by `ℚ`; `bytes` produced by UTF-8 encoding a
`str` are modelled by the string itself; Python code that raises returns
`Except String` carrying `str(exc)`.  External collaborators (the network,
the filesystem, the YAML/JSON parsers of the standard library) are passed
in as explicit oracle functions.  String manipulation is implemented over
`List Char` so that every definition reduces by `rfl`/`decide` on concrete
inputs.
-/

mutual
/-- JSON-like Python value: the payloads, bodies and header values the
runtime handles (`Any` in the Python annotations). -/
inductive Value where
  | vnull
  | vbool (b : Bool)
  | vint (n : Int)
  | vstr (s : String)
  | vlist (xs : ValueL)
  | vdict (kvs : ValueD)
/-- A Python list of values. -/
inductive ValueL where
  | nil
  | cons (hd : Value) (tl : ValueL)
/-- A Python dict with string keys (JSON object); insertion order kept,
keys unique as in a Python dict. -/
inductive ValueD where
  | nil
  | cons (key : String) (val : Value) (tl : ValueD)
end

/-- `dict.get(key)`: the value at `key`, or `None` (here `none`). -/
def ValueD.lookup : ValueD → String → Option Value
  | .nil, _ => none
  | .cons k v tl, key => if k == key then some v else tl.lookup key

/-- The pairs of a modelled dict, for stating theorems. -/
def ValueD.toPairs : ValueD → List (String × Value)
  | .nil => []
  | .cons k v tl => (k, v) :: tl.toPairs

/-- JSON string escaping as `json.dumps` performs it for the characters the
repository's values contain (quote, backslash, newline, tab, CR; other
characters are emitted verbatim). -/
def jsonEscapeChar (c : Char) : String :=
  if c = '"' then "\\\""
  else if c = '\\' then "\\\\"
  else if c = '\n' then "\\n"
  else if c = '\t' then "\\t"
  else if c = '\r' then "\\r"
  else String.mk [c]

/-- Concatenation of the escaped characters of a string body. -/
def jsonEscapeList : List Char → String
  | [] => ""
  | c :: cs => jsonEscapeChar c ++ jsonEscapeList cs

/-- `json.dumps` of a string. -/
def jsonQuote (s : String) : String :=
  "\"" ++ jsonEscapeList s.toList ++ "\""

mutual
/-- `json.dumps(v)` with Python's default separators `", "` and `": "`. -/
def jsonDumps : Value → String
  | .vnull => "null"
  | .vbool b => if b then "true" else "false"
  | .vint n => toString n
  | .vstr s => jsonQuote s
  | .vlist xs => "[" ++ jsonDumpsL xs ++ "]"
  | .vdict kvs => "\x7b" ++ jsonDumpsD kvs ++ "\x7d"
/-- `", "`-separated rendering of a list's elements. -/
def jsonDumpsL : ValueL → String
  | .nil => ""
  | .cons v .nil => jsonDumps v
  | .cons v tl => jsonDumps v ++ ", " ++ jsonDumpsL tl
/-- `", "`-separated rendering of a dict's entries. -/
def jsonDumpsD : ValueD → String
  | .nil => ""
  | .cons k v .nil => jsonQuote k ++ ": " ++ jsonDumps v
  | .cons k v tl => jsonQuote k ++ ": " ++ jsonDumps v ++ ", " ++ jsonDumpsD tl
end

mutual
/-- Python `repr` of a value, used by `str()` on containers (single-quoted
strings, `None`/`True`/`False`); escaping inside the quotes is not modelled
as no claim exercises it. -/
def pyRepr : Value → String
  | .vnull => "None"
  | .vbool b => if b then "True" else "False"
  | .vint n => toString n
  | .vstr s => "'" ++ s ++ "'"
  | .vlist xs => "[" ++ pyReprL xs ++ "]"
  | .vdict kvs => "\x7b" ++ pyReprD kvs ++ "\x7d"
/-- `repr` of a list's elements. -/
def pyReprL : ValueL → String
  | .nil => ""
  | .cons v .nil => pyRepr v
  | .cons v tl => pyRepr v ++ ", " ++ pyReprL tl
/-- `repr` of a dict's entries. -/
def pyReprD : ValueD → String
  | .nil => ""
  | .cons k v .nil => "'" ++ k ++ "': " ++ pyRepr v
  | .cons k v tl => "'" ++ k ++ "': " ++ pyRepr v ++ ", " ++ pyReprD tl
end

/-- Python `str()` of a value: identity on strings, `repr`-style otherwise. -/
def pyStr : Value → String
  | .vstr s => s
  | v => pyRepr v

/-- Python truthiness of an optional string field: `None` and the empty
string are falsy. -/
def truthyStr : Option String → Bool
  | none => false
  | some s => !s.isEmpty

/-- Drop a given character from both ends of a character list
(Python `str.strip(c)`). -/
def stripCharList (c : Char) (l : List Char) : List Char :=
  ((l.dropWhile (· = c)).reverse.dropWhile (· = c)).reverse

/-- Python `s.strip(c)`. -/
def stripChar (c : Char) (s : String) : String :=
  String.mk (stripCharList c s.toList)

/-- Python `str.split(sep)` for a one-character separator: the empty input
gives `[""]`, adjacent separators give empty fields. -/
def splitOnChar (c : Char) : List Char → List (List Char)
  | [] => [[]]
  | x :: xs =>
      if x = c then [] :: splitOnChar c xs
      else
        match splitOnChar c xs with
        | s :: rest => (x :: s) :: rest
        | [] => [[x]]

/-- The whitespace characters Python's `str.strip()` removes in the
scenarios at hand (space, tab, LF, CR). -/
def isPyWs (c : Char) : Bool :=
  c = ' ' || c = '\t' || c = '\n' || c = '\r'

/-- Python `s.strip()`. -/
def pyStripWs (s : String) : String :=
  String.mk (((s.toList.dropWhile isPyWs).reverse.dropWhile isPyWs).reverse)

/-- ASCII uppercase of one character (`str.upper` acts on ASCII here). -/
def pyUpperChar (c : Char) : Char :=
  if 'a' ≤ c ∧ c ≤ 'z' then Char.ofNat (c.toNat - 32) else c

/-- Python `s.upper()` (ASCII). -/
def pyUpper (s : String) : String :=
  String.mk (s.toList.map pyUpperChar)

/-- ASCII lowercase of one character. -/
def pyLowerChar (c : Char) : Char :=
  if 'A' ≤ c ∧ c ≤ 'Z' then Char.ofNat (c.toNat + 32) else c

/-- Python `s.lower()` (ASCII). -/
def pyLower (s : String) : String :=
  String.mk (s.toList.map pyLowerChar)

/-- List prefix test, used for Python `str.startswith`. -/
def isPrefixOfList : List Char → List Char → Bool
  | [], _ => true
  | _ :: _, [] => false
  | p :: ps, x :: xs => p = x && isPrefixOfList ps xs

/-- Python `s.startswith(p)`. -/
def pyStartsWith (s p : String) : Bool :=
  isPrefixOfList p.toList s.toList

/-- Python `c in s` for a single character. -/
def strContainsChar (s : String) (c : Char) : Bool :=
  s.toList.contains c

/-- Python `s[n:]` (drop the first `n` characters). -/
def pyDrop (s : String) (n : Nat) : String :=
  String.mk (s.toList.drop n)

/-- UTF-8 byte length of a string (`len(s.encode("utf-8"))`). -/
def utf8Len (s : String) : Nat :=
  (s.toList.map Char.utf8Size).sum

/-- Python `max(a, b)` on ints, written out so it kernel-reduces. -/
def pyMax (a b : Int) : Int :=
  if a < b then b else a

/-- `mock_config_builder.models.MockMatcher`: criteria used by runtime mock
servers to match an incoming request; every field defaults to `None`. -/
structure MockMatcher where
  method : Option String := none
  path : Option String := none
  soap_action : Option String := none
  rpc_method : Option String := none

/-- `mock_config_builder.models.MockResponse`: static response payload
returned by the mock server. -/
structure MockResponse where
  status : Int := 200
  headers : List (String × String) := []
  body : Value := .vdict .nil
  latency_ms : Int := 0

/-- `mock_config_builder.models.MockRoute`: a single mocked operation.
The informational `assertions` and `driver_stub` fields are carried by the
config but never read by the runtime, and are elided here. -/
structure MockRoute where
  operation : String
  description : String := ""
  matcher : MockMatcher
  response : MockResponse

/-- `mock_config_builder.models.MockServer`: server instance definition. -/
structure MockServer where
  name : String
  protocol : String
  host : String := "127.0.0.1"
  port : Int := 0
  routes : List MockRoute := []

/-- `mock_server.server.MockRequest` as `_match_route` consumes it: the
`path` is already stripped of its query string by `Handler._handle`, and
`json` models the `MockRequest.json` property (the result of parsing the
raw body with `json.loads`, `none` when the body is empty or unparsable;
a top-level non-string `method` entry is modelled as absent since it can
never equal a matcher's `rpc_method` string). -/
structure MockRequest where
  method : String
  path : String
  headers : List (String × String) := []
  json : Option Value := none

/-- `mock_server.server._rest_path_matches`, translated clause by clause:
literal equality first, then the `{`-containing template is compared
segment-wise after stripping leading/trailing slashes. -/
def restPathMatches (matcher_path request_path : String) : Bool :=
  if matcher_path == request_path then true
  else if !strContainsChar matcher_path '{' then false
  else
    let matcher_parts := splitOnChar '/' (stripCharList '/' matcher_path.toList)
    let request_parts := splitOnChar '/' (stripCharList '/' request_path.toList)
    if matcher_parts.length ≠ request_parts.length then false
    else (matcher_parts.zip request_parts).all fun pr =>
      if pr.1.head? = some '{' ∧ pr.1.getLast? = some '}' then true
      else pr.1 == pr.2

/-- The `method` field `_match_route` extracts for rpc servers:
`(request.json or {}).get("method") if isinstance(payload, dict) else None`,
with non-string values collapsed to `none` (they never equal the matcher's
string). -/
def rpcMethodName (request : MockRequest) : Option String :=
  match request.json with
  | some (.vdict kvs) =>
      match kvs.lookup "method" with
      | some (.vstr s) => some s
      | _ => none
  | _ => none

/-- The per-route acceptance test implicit in `_match_route`'s loop body: a
route is returned exactly when none of its protocol branch's `continue`
conditions fire; a protocol outside rest/soap/rpc accepts nothing. -/
def routeAccepts (protocol : String) (request : MockRequest) (matcher : MockMatcher) : Bool :=
  if protocol == "rest" then
    !(truthyStr matcher.path && !restPathMatches (matcher.path.getD "") request.path) &&
    !(truthyStr matcher.method && (pyUpper (matcher.method.getD "") != pyUpper request.method))
  else if protocol == "soap" then
    let soap_action := stripChar '"' ((request.headers.lookup "SOAPAction").getD "")
    !(truthyStr matcher.soap_action && (matcher.soap_action.getD "" != soap_action)) &&
    !(truthyStr matcher.path && (matcher.path.getD "" != request.path))
  else if protocol == "rpc" then
    !(truthyStr matcher.rpc_method && (some (matcher.rpc_method.getD "") != rpcMethodName request))
  else false

/-- The `for route in server.routes` loop of `_match_route`, translated with
its `continue`/`return` structure intact: each protocol branch either skips
to the next route or returns the current one; an unknown protocol falls
through every branch and skips. -/
def matchRouteLoop (server : MockServer) (request : MockRequest) : List MockRoute → Option MockRoute
  | [] => none
  | route :: rest =>
    let matcher := route.matcher
    if server.protocol == "rest" then
      if truthyStr matcher.path && !restPathMatches (matcher.path.getD "") request.path then
        matchRouteLoop server request rest
      else if truthyStr matcher.method && (pyUpper (matcher.method.getD "") != pyUpper request.method) then
        matchRouteLoop server request rest
      else some route
    else if server.protocol == "soap" then
      let soap_action := stripChar '"' ((request.headers.lookup "SOAPAction").getD "")
      if truthyStr matcher.soap_action && (matcher.soap_action.getD "" != soap_action) then
        matchRouteLoop server request rest
      else if truthyStr matcher.path && (matcher.path.getD "" != request.path) then
        matchRouteLoop server request rest
      else some route
    else if server.protocol == "rpc" then
      if truthyStr matcher.rpc_method && (some (matcher.rpc_method.getD "") != rpcMethodName request) then
        matchRouteLoop server request rest
      else some route
    else matchRouteLoop server request rest

/-- `mock_server.server._match_route`. -/
def matchRoute (server : MockServer) (request : MockRequest) : Option MockRoute :=
  matchRouteLoop server request server.routes

/-- `mock_server.server._content_type`: the protocol-default content type. -/
def contentType (protocol : String) : String :=
  if protocol == "soap" then "text/xml" else "application/json"

/-- `mock_server.server._render_body`: structured bodies are
JSON-serialized (the source's soap conditional returns `json.dumps(body)`
on both sides), strings are emitted verbatim, anything else is
JSON-serialized. -/
def renderBody (protocol : String) (response : MockResponse) : String :=
  match protocol, response.body with
  | _, .vdict kvs => jsonDumps (.vdict kvs)
  | _, .vlist xs => jsonDumps (.vlist xs)
  | _, .vstr s => s
  | _, b => jsonDumps b

/-- Python `dict(base); base.update(extra)` for string-keyed dicts as
ordered association lists: keys of `base` keep their position but take
`extra`'s value on conflict, new keys of `extra` are appended. -/
def dictUpdate (base extra : List (String × String)) : List (String × String) :=
  base.map (fun kv => (kv.1, (extra.lookup kv.1).getD kv.2)) ++
  extra.filter (fun kv => (base.lookup kv.1).isNone)

/-- What one request handling emits, as observable through the socket and
the clock: the status line, the headers in the order `send_header` is
called, the written body (empty for HEAD), and how many milliseconds the
handler slept before responding. -/
structure HandlerOutcome where
  status : Int
  headers : List (String × String)
  body : String
  slept_ms : Int

/-- `Handler._respond`: a JSON error response (no artificial latency). -/
def respond (status : Int) (payload : Value) (head_only : Bool) : HandlerOutcome :=
  let body := jsonDumps payload
  { status := status
    headers := [("Content-Type", "application/json"), ("Content-Length", toString (utf8Len body))]
    body := if head_only then "" else body
    slept_ms := 0 }

/-- `Handler._respond_with_route`: sleep `max(latency_ms, 0)` milliseconds
(`time.sleep` is skipped when that is 0, which sleeps just as long), render
the body, apply `response.status or 200`, merge the protocol-default
content type with the route's headers (route wins), then append the
`Content-Length` of the UTF-8 encoded body. -/
def respondWithRoute (protocol : String) (route : MockRoute) (head_only : Bool) : HandlerOutcome :=
  let response := route.response
  let slept := pyMax response.latency_ms 0
  let payload := renderBody protocol response
  let status_code : Int := if response.status == 0 then 200 else response.status
  let headers := dictUpdate [("Content-Type", contentType protocol)] response.headers
  { status := status_code
    headers := headers ++ [("Content-Length", toString (utf8Len payload))]
    body := if head_only then "" else payload
    slept_ms := slept }

/-- The body of the miss response `Handler._handle` sends when no route
matches. -/
def noMatchBody : Value :=
  .vdict (.cons "error" (.vstr "No mock route matched") .nil)

/-- `Handler._handle` after the request object is built: match, then either
the route's response or the 404 miss response.  The logging calls are pure
telemetry and the `except` fallback (500) guards only the effectful send
path, which cannot fail in this pure model. -/
def handle (server : MockServer) (request : MockRequest) (head_only : Bool) : HandlerOutcome :=
  match matchRoute server request with
  | none => respond 404 noMatchBody head_only
  | some route => respondWithRoute server.protocol route head_only


/-- `test_executor.http_executor.ExecutionResult`: details about a
performed step request; `elapsed_ms` is a measured float, modelled in ℚ. -/
structure ExecutionResult where
  status_code : Int
  elapsed_ms : ℚ
  response_body : Option String := none

/-- `test_executor.http_executor.DEFAULT_BASE_URL`. -/
def DEFAULT_BASE_URL : String := "http://127.0.0.1:9101"

/-- `test_executor.http_executor.DEFAULT_TIMEOUT` (seconds). -/
def DEFAULT_TIMEOUT : ℚ := 10

/-- `test_executor.http_executor._PLACEHOLDER_DEFAULTS`. -/
def PLACEHOLDER_DEFAULTS : List (String × String) :=
  [("paymentId", "111"), ("customerId", "cust-001"), ("reportId", "rep-001")]

/-- One pass of `_PLACEHOLDER_PATTERN.sub` (the regex `\x7b([^\x7d]+)\x7d`):
left-to-right, at each `{` look for the next `}`; a nonempty key between
them is replaced via the defaults table (falling back to `"sample"`), an
empty one does not match.  The fuel is the remaining length, consumed once
per character examined, so the recursion is structural and kernel-reducible. -/
def substPlaceholdersAux (defaults : List (String × String)) : Nat → List Char → List Char
  | 0, l => l
  | _ + 1, [] => []
  | fuel + 1, c :: rest =>
    if c = '{' then
      match rest.dropWhile (· ≠ '}') with
      | '}' :: tail =>
        let key := rest.takeWhile (· ≠ '}')
        if key = [] then c :: substPlaceholdersAux defaults fuel rest
        else ((defaults.lookup (String.mk key)).getD "sample").toList ++
             substPlaceholdersAux defaults fuel tail
      | _ => c :: substPlaceholdersAux defaults fuel rest
    else c :: substPlaceholdersAux defaults fuel rest

/-- `_PLACEHOLDER_PATTERN.sub(self._substitute_placeholder, path)`. -/
def substPlaceholders (defaults : List (String × String)) (s : String) : String :=
  String.mk (substPlaceholdersAux defaults s.toList.length s.toList)

/-- Python `s.rstrip("/")`, applied to the base URL at construction. -/
def rstripSlash (s : String) : String :=
  String.mk ((s.toList.reverse.dropWhile (· = '/')).reverse)

/-- `HttpStepExecutor._build_url`: substitute placeholders, ensure a
leading slash, prepend the (already `rstrip("/")`-ed) base URL. -/
def buildUrl (base_url : String) (path : String) : String :=
  let resolved_path := substPlaceholders PLACEHOLDER_DEFAULTS path
  let resolved_path := if pyStartsWith resolved_path "/" then resolved_path else "/" ++ resolved_path
  base_url ++ resolved_path

/-- `HttpStepExecutor._extract_headers`: the payload's `headers` entry when
the payload is a dict and that entry is itself a dict, stringified
(`str(key)` is the identity on the string keys); otherwise empty. -/
def extractHeaders (payload : Value) : List (String × String) :=
  match payload with
  | .vdict kvs =>
    match kvs.lookup "headers" with
    | some (.vdict h) => h.toPairs.map (fun kv => (kv.1, pyStr kv.2))
    | _ => []
  | _ => []

/-- `HttpStepExecutor._encode_body`: no body for GET or a non-dict payload;
otherwise the payload's `body` entry — absent or `None` gives no body,
dict/list is JSON-encoded, a string is sent verbatim (UTF-8 bytes are
modelled by the string itself), anything else is `str()`-ed. -/
def encodeBody (method : String) (payload : Value) : Option String :=
  if method == "GET" then none
  else match payload with
  | .vdict kvs =>
    match kvs.lookup "body" with
    | none => none
    | some .vnull => none
    | some (.vdict d) => some (jsonDumps (.vdict d))
    | some (.vlist xs) => some (jsonDumps (.vlist xs))
    | some b => match b with
      | .vstr s => some s
      | _ => some (pyStr b)
  | _ => none

/-- The request `urllib.request.Request` is built from. -/
structure NetRequest where
  method : String
  url : String
  headers : List (String × String)
  data : Option String

/-- What one `urlopen` call can do, as the `except` arms of
`_perform_request` distinguish it: a 2xx/3xx response, an
`error.HTTPError` (4xx/5xx, carrying a status and a readable body), or an
`error.URLError` (transport failure: connection refused, DNS failure). -/
inductive NetOutcome where
  | success (status : Int) (body : String)
  | http_error (code : Int) (body : String)
  | url_error (reason : String)

/-- The network oracle: the outcome of performing a request, paired with
the elapsed wall-clock milliseconds the `perf_counter` pair measures. -/
def NetOracle : Type := NetRequest → NetOutcome × ℚ

/-- `HttpStepExecutor._perform_request`: an `HTTPError` is caught and
returned as an ordinary (status, body, elapsed) triple; a `URLError` is
re-raised as `RuntimeError(f"HTTP request failed for {method} {url}: {exc}")`. -/
def performRequest (net : NetOracle) (method url : String)
    (headers : List (String × String)) (body : Option String) :
    Except String (Int × String × ℚ) :=
  match net { method := method, url := url, headers := headers, data := body } with
  | (.success status payload, elapsed_ms) => .ok (status, payload, elapsed_ms)
  | (.http_error code payload, elapsed_ms) => .ok (code, payload, elapsed_ms)
  | (.url_error reason, _) =>
      .error ("HTTP request failed for " ++ method ++ " " ++ url ++ ": " ++ reason)

/-- `test_executor.models.ScenarioStep.request`, the slice the runtime
reads: `method` (default `"GET"`), `path` and the `payload` file
reference. -/
structure StepRequest where
  method : String := "GET"
  path : Option String := none
  payload : Option String := none

/-- `test_executor.models.ScenarioStep` (the `description`/`notes` fields
are never read by the runtime). -/
structure ScenarioStep where
  name : String
  protocol : String
  request : StepRequest
  assertions : List String := []

/-- `test_executor.models.Scenario` (metadata and timestamps elided: the
runtime only copies them into artifacts). -/
structure Scenario where
  scenario_id : String
  service : String
  version : String
  protocol : String
  steps : List ScenarioStep := []

/-- `HttpStepExecutor.execute`: upper-case the method, default the path to
`"/"` when missing or empty, build the URL, merge the payload headers over
the `Accept` default, encode the body, perform the request. -/
def httpExecute (net : NetOracle) (base_url : String) (step : ScenarioStep)
    (payload : Value) : Except String ExecutionResult :=
  let method := pyUpper step.request.method
  let raw_path := if truthyStr step.request.path then step.request.path.getD "" else "/"
  let url := buildUrl base_url raw_path
  let headers := dictUpdate [("Accept", "application/json")] (extractHeaders payload)
  let body := encodeBody method payload
  match performRequest net method url headers body with
  | .error e => .error e
  | .ok (status, response_body, elapsed_ms) =>
      .ok { status_code := status, elapsed_ms := elapsed_ms, response_body := some response_body }


/-- Equality on `Except` results is decidable componentwise (used to state
and decide concrete evaluations of the fallible embedded functions). -/
instance {ε α : Type} [DecidableEq ε] [DecidableEq α] : DecidableEq (Except ε α) := fun x y =>
  match x, y with
  | .ok a, .ok b =>
      if h : a = b then .isTrue (by rw [h]) else .isFalse (by intro hh; cases hh; exact h rfl)
  | .error a, .error b =>
      if h : a = b then .isTrue (by rw [h]) else .isFalse (by intro hh; cases hh; exact h rfl)
  | .ok _, .error _ => .isFalse (by intro h; cases h)
  | .error _, .ok _ => .isFalse (by intro h; cases h)

/-- Decimal digit test. -/
def isDigitCh (c : Char) : Bool :=
  '0' ≤ c ∧ c ≤ '9'

/-- Accumulate decimal digits; `none` as soon as a non-digit appears. -/
def digitsValAux : List Char → Nat → Option Nat
  | [], acc => some acc
  | c :: cs, acc =>
      if isDigitCh c then digitsValAux cs (acc * 10 + (c.toNat - 48)) else none

/-- Python `int(text)` on the decimal literals the assertion grammar uses:
strip whitespace, optional sign, one or more digits; anything else raises
`ValueError` (underscored and non-decimal literals are not modelled). -/
def pyInt (s : String) : Except String Int :=
  let core : Option Int :=
    match (pyStripWs s).toList with
    | '-' :: ds => if ds = [] then none else (digitsValAux ds 0).map (fun n => -(n : Int))
    | '+' :: ds => if ds = [] then none else (digitsValAux ds 0).map (fun n => (n : Int))
    | ds => if ds = [] then none else (digitsValAux ds 0).map (fun n => (n : Int))
  match core with
  | some n => .ok n
  | none => .error ("invalid literal for int() with base 10: " ++ pyRepr (.vstr s))

/-- Unsigned decimal float body: `digits`, `digits.digits`, `digits.` or
`.digits`. -/
def parseUnsignedFloat (l : List Char) : Option ℚ :=
  let a := l.takeWhile isDigitCh
  match l.dropWhile isDigitCh with
  | [] => if a = [] then none else (digitsValAux a 0).map (fun n => mkRat n 1)
  | '.' :: rest2 =>
      let b := rest2.takeWhile isDigitCh
      if rest2.dropWhile isDigitCh = [] ∧ (a ≠ [] ∨ b ≠ []) then
        (digitsValAux (a ++ b) 0).map (fun n => mkRat n (10 ^ b.length))
      else none
  | _ => none

/-- Python `float(text)` on plain decimal literals (exponents, `inf` and
`nan` are not modelled: the assertion grammar's thresholds are plain
numbers); raises `ValueError` otherwise.  The float's rounding to binary
is below this model's abstraction: values are exact rationals. -/
def pyFloat (s : String) : Except String ℚ :=
  let core : Option ℚ :=
    match (pyStripWs s).toList with
    | '-' :: l => (parseUnsignedFloat l).map Neg.neg
    | '+' :: l => parseUnsignedFloat l
    | l => parseUnsignedFloat l
  match core with
  | some q => .ok q
  | none => .error ("could not convert string to float: " ++ pyRepr (.vstr s))

/-- The `AssertionError` text for a status mismatch in
`ScenarioRunner._validate_assertions`. -/
def statusFailMsg (step_name : String) (expected received : Int) : String :=
  "Step '" ++ step_name ++ "' expected status " ++ toString expected ++
  " but received " ++ toString received

/-- The `AssertionError` text for a response-time threshold breach; the
threshold numeral is rendered through ℚ where Python formats a float. -/
def timeFailMsg (step_name : String) (threshold : ℚ) : String :=
  "Step '" ++ step_name ++ "' exceeded response time threshold " ++
  toString threshold ++ "ms"

/-- `ScenarioRunner._validate_assertions`, clause by clause: strip the
clause; a `status ==` prefix strips the remainder after the first `==`
and parses it with `int(...)` (the source's
`int(text.split("==", 1)[1].strip())`), raising on mismatch; a
`response_time_ms <` prefix likewise strips the remainder after the first
`<` and parses with `float(...)`, raising when the elapsed time is not
strictly below; any other clause falls through to the next.  (The
`isinstance(clause, str)` guard is vacuous here: the model types
assertions as strings, as the pydantic model does.)  The first raise ends
evaluation: the `Except` value returned for the failing clause is the
result, whatever follows. -/
def validateAssertions (step_name : String) (execution : ExecutionResult) :
    List String → Except String Unit
  | [] => .ok ()
  | clause :: rest =>
    let text := pyStripWs clause
    if pyStartsWith text "status ==" then
      match pyInt (pyStripWs (pyDrop text 9)) with
      | .error e => .error e
      | .ok expected =>
        if execution.status_code ≠ expected then
          .error (statusFailMsg step_name expected execution.status_code)
        else validateAssertions step_name execution rest
    else if pyStartsWith text "response_time_ms <" then
      match pyFloat (pyStripWs (pyDrop text 18)) with
      | .error e => .error e
      | .ok threshold =>
        if threshold ≤ execution.elapsed_ms then
          .error (timeFailMsg step_name threshold)
        else validateAssertions step_name execution rest
    else validateAssertions step_name execution rest

/-- The external payload parsers `_load_payload` dispatches to:
`yaml.safe_load` (total on the files the bundles carry) and `json.loads`
(which can raise `JSONDecodeError`). -/
structure Parsers where
  yaml_load : String → Value
  json_loads : String → Except String Value

/-- `pathlib.Path(p).suffix.lower()` for ordinary file names: the part of
the last path component from its rightmost interior dot, lower-cased. -/
def pathSuffixLower (p : String) : String :=
  let name := (splitOnChar '/' p.toList).getLastD []
  let parts := splitOnChar '.' name
  if parts.length ≥ 2 ∧ parts.getLastD [] ≠ [] ∧ ¬(parts.length = 2 ∧ parts.headD [] = []) then
    "." ++ pyLower (String.mk (parts.getLastD []))
  else ""

/-- `test_executor.runner._load_payload` with the filesystem as an oracle
from paths to file text (`none` when `payload_path.exists()` is false).
The `(base_dir / payload_ref).resolve()` join is modelled as string
concatenation with `/`; `base_dir` is the bundle directory (the bundle if
it is a directory, else its parent).  A falsy reference loads nothing;
a missing file raises `FileNotFoundError(f"Payload file not found: ...")`;
`.yaml`/`.yml` files go through `yaml.safe_load`, everything else tries
`json.loads` and falls back to the raw text. -/
def loadPayload (fs : String → Option String) (parsers : Parsers)
    (base_dir : String) (payload_ref : Option String) :
    Except String (Value × Option String) :=
  if !truthyStr payload_ref then .ok (.vnull, none)
  else
    let payload_path := base_dir ++ "/" ++ payload_ref.getD ""
    match fs payload_path with
    | none => .error ("Payload file not found: " ++ payload_path)
    | some text =>
      if pathSuffixLower payload_path == ".yaml" || pathSuffixLower payload_path == ".yml" then
        .ok (parsers.yaml_load text, some payload_path)
      else
        match parsers.json_loads text with
        | .ok v => .ok (v, some payload_path)
        | .error _ => .ok (.vstr text, some payload_path)

/-- Python `a or b` on strings. -/
def orElseStr (a b : String) : String :=
  if a.isEmpty then b else a

/-- `ScenarioRunner._execute_with_protocol`: the effective protocol is the
step's, else the scenario's, lower-cased; only openapi/rest/http dispatch
to the HTTP executor, anything else raises
`NotImplementedError(f"Protocol '{step.protocol}' is not supported")`
(note: the message shows the step's own protocol field). -/
def executeWithProtocol (net : NetOracle) (base_url : String)
    (scenario : Scenario) (step : ScenarioStep) (payload : Value) :
    Except String ExecutionResult :=
  let protocol := pyLower (orElseStr step.protocol (orElseStr scenario.protocol ""))
  if protocol == "openapi" || protocol == "rest" || protocol == "http" then
    httpExecute net base_url step payload
  else .error ("Protocol '" ++ step.protocol ++ "' is not supported")

/-- `test_executor.models.StepResult`, the slice the claims are about
(timestamps, duration and the `traceback` text are wall-clock or
interpreter artifacts and are elided). -/
structure StepResult where
  step_index : Nat
  step_name : String
  status : String
  assertions : List String
  error : Option String := none

/-- `ScenarioRunner._execute_step`.  The crucial control-flow fact, taken
verbatim from the source: `_load_payload` is called BEFORE the
`try`/`except` block, so a payload error propagates out of the method
(`Except.error`); only the executor call and the assertion check sit
inside the `try`, whose `except Exception` converts a raise into a failed
StepResult carrying `str(exc)`. -/
def executeStep (net : NetOracle) (parsers : Parsers)
    (fs : String → Option String) (base_dir base_url : String)
    (scenario : Scenario) (step : ScenarioStep) (step_index : Nat) :
    Except String StepResult :=
  match loadPayload fs parsers base_dir step.request.payload with
  | .error e => .error e
  | .ok (payload, _payload_path) =>
    let attempt : Except String Unit := do
      let execution ← executeWithProtocol net base_url scenario step payload
      validateAssertions step.name execution step.assertions
    match attempt with
    | .ok _ => .ok { step_index := step_index, step_name := step.name,
                     status := "passed", assertions := step.assertions, error := none }
    | .error e => .ok { step_index := step_index, step_name := step.name,
                        status := "failed", assertions := step.assertions, error := some e }

/-- The `for index, step in enumerate(scenario.steps, start=1)` loop of
`ScenarioRunner.run`: each step's result is appended (and its event line
written) in order; an exception `_execute_step` lets through aborts the
loop — and with it the whole run — before any later step executes. -/
def runSteps (net : NetOracle) (parsers : Parsers)
    (fs : String → Option String) (base_dir base_url : String)
    (scenario : Scenario) : Nat → List ScenarioStep → Except String (List StepResult)
  | _, [] => .ok []
  | index, step :: rest =>
    match executeStep net parsers fs base_dir base_url scenario step index with
    | .error e => .error e
    | .ok result =>
      match runSteps net parsers fs base_dir base_url scenario (index + 1) rest with
      | .error e => .error e
      | .ok results => .ok (result :: results)

/-- `ScenarioRunner.run`'s step loop from the top: indices start at 1. -/
def runScenario (net : NetOracle) (parsers : Parsers)
    (fs : String → Option String) (base_dir base_url : String)
    (scenario : Scenario) : Except String (List StepResult) :=
  runSteps net parsers fs base_dir base_url scenario 1 scenario.steps

/-- One entry of `ScenarioResult.failures` as `_build_summary` shapes it
(the `traceback` key is elided with the traceback text). -/
structure FailureEntry where
  step_name : String
  error : Option String

/-- `test_executor.models.ScenarioResult`, the summary slice
`_build_summary` computes from the step results (timestamps, duration and
artifact paths elided). -/
structure ScenarioResult where
  scenario_id : String
  run_id : String
  total_steps : Nat
  passed_steps : Nat
  failed_steps : Nat
  failures : List FailureEntry

/-- `ScenarioRunner._build_summary`: `failed` filters the results whose
status is not `"passed"`; `passed_steps` is the difference of the counts;
`failures` maps the failed results to their summaries. -/
def buildSummary (scenario : Scenario) (run_id : String)
    (step_results : List StepResult) : ScenarioResult :=
  let failed := step_results.filter (fun result => result.status != "passed")
  { scenario_id := scenario.scenario_id
    run_id := run_id
    total_steps := step_results.length
    passed_steps := step_results.length - failed.length
    failed_steps := failed.length
    failures := failed.map (fun result => { step_name := result.step_name, error := result.error }) }


/-- The segment-wise acceptance condition of the spec's matching rule,
with "segment" read as the code normalizes it (leading/trailing slashes
stripped, then split on `/`): equal segment counts, and every matcher
segment that is not `\x7b...\x7d`-delimited equal to its counterpart. -/
def restSegmentsAccept (matcher_path request_path : String) : Bool :=
  let matcher_parts := splitOnChar '/' (stripCharList '/' matcher_path.toList)
  let request_parts := splitOnChar '/' (stripCharList '/' request_path.toList)
  matcher_parts.length == request_parts.length &&
  (matcher_parts.zip request_parts).all fun pr =>
    if pr.1.head? = some '{' ∧ pr.1.getLast? = some '}' then true
    else pr.1 == pr.2

/-- The REST path rule exactly as the claim words it: literal equality, or
the segment-wise condition — with no requirement that the template contain
a `\x7b` at all.  Stated for comparison with `restPathMatches`. -/
def specRestPathMatches (matcher_path request_path : String) : Bool :=
  (matcher_path == request_path) || restSegmentsAccept matcher_path request_path

/-- C6: for every list of StepResults, the ScenarioResult `_build_summary`
builds from it satisfies `passed_steps + failed_steps = total_steps`, its
`failures` list has exactly `failed_steps` entries, and `failed_steps`
counts the results whose status is not `"passed"`. -/
theorem C6_summary_arithmetic (scenario : Scenario) (run_id : String)
    (step_results : List StepResult) :
    (buildSummary scenario run_id step_results).passed_steps +
      (buildSummary scenario run_id step_results).failed_steps =
      (buildSummary scenario run_id step_results).total_steps ∧
    (buildSummary scenario run_id step_results).failures.length =
      (buildSummary scenario run_id step_results).failed_steps ∧
    (buildSummary scenario run_id step_results).failed_steps =
      (step_results.filter (fun result => result.status != "passed")).length := by
  refine ⟨?_, ?_, rfl⟩
  · simp only [buildSummary]
    exact Nat.sub_add_cancel (List.length_filter_le _ _)
  · simp [buildSummary]

/-- C4: a request matching no declared route gets status exactly 404 with
the JSON body `\x7b"error": "No mock route matched"\x7d`; the handler is a
total function of the request, so handling cannot crash. -/
theorem C4_unmatched_404 (server : MockServer) (request : MockRequest)
    (h : matchRoute server request = none) :
    (handle server request false).status = 404 ∧
    (handle server request false).body = jsonDumps noMatchBody ∧
    jsonDumps noMatchBody = "\x7b\"error\": \"No mock route matched\"\x7d" := by
  refine ⟨?_, ?_, by decide⟩ <;> simp [handle, h, respond]

/-- Witness for C4 at a concrete server and request: a rest server with
one route whose path does not match. -/
theorem C4_witness :
    (handle
      { name := "payments", protocol := "rest",
        routes := [{ operation := "get-payment",
                     matcher := { method := some "GET", path := some "/payments" },
                     response := {} }] }
      { method := "GET", path := "/other" } false).status = 404 ∧
    (handle
      { name := "payments", protocol := "rest",
        routes := [{ operation := "get-payment",
                     matcher := { method := some "GET", path := some "/payments" },
                     response := {} }] }
      { method := "GET", path := "/other" } false).body = jsonDumps noMatchBody ∧
    jsonDumps noMatchBody = "\x7b\"error\": \"No mock route matched\"\x7d" :=
  C4_unmatched_404 _ _ rfl

/-- C10: a server whose protocol is none of rest/soap/rpc matches nothing:
`_match_route`'s loop falls through every protocol branch for every route,
so every request receives the 404 miss response. -/
theorem C10_unknown_protocol_404 (server : MockServer) (request : MockRequest)
    (head_only : Bool)
    (h1 : server.protocol ≠ "rest") (h2 : server.protocol ≠ "soap")
    (h3 : server.protocol ≠ "rpc") :
    matchRoute server request = none ∧
    (handle server request head_only).status = 404 := by
  have hmatch : ∀ routes : List MockRoute,
      matchRouteLoop server request routes = none := by
    intro routes
    induction routes with
    | nil => rfl
    | cons route rest ih => simp [matchRouteLoop, h1, h2, h3, ih]
  refine ⟨hmatch server.routes, ?_⟩
  simp [handle, matchRoute, hmatch, respond]

/-- Witness for C10: a "graphql" server with a wildcard rest-style route
still 404s. -/
theorem C10_witness :
    matchRoute
      { name := "g", protocol := "graphql",
        routes := [{ operation := "anything", matcher := {}, response := {} }] }
      { method := "POST", path := "/graphql" } = none ∧
    (handle
      { name := "g", protocol := "graphql",
        routes := [{ operation := "anything", matcher := {}, response := {} }] }
      { method := "POST", path := "/graphql" } false).status = 404 :=
  C10_unknown_protocol_404 _ _ _ (by decide) (by decide) (by decide)

/-- A length guard written with `if ... ≠ ... then false else` equals the
conjunction of the equality test with the guarded condition. -/
theorem guardLenEq (a b : Nat) (X : Bool) :
    (if a ≠ b then false else X) = ((a == b) && X) := by
  by_cases h : a = b <;> simp [h]

/-- C3 counterexample: the claim reads "accepts exactly when the paths are
literally equal, or when the segment counts are equal and every
non-parameter segment is equal" — but for the brace-free matcher
`/payments/` against `/payments` the segment condition holds (both
normalize to the single segment `payments`) while the code rejects: the
code only enters segment comparison when the matcher path contains `\x7b`. -/
theorem C3_counterexample :
    specRestPathMatches "/payments/" "/payments" = true ∧
    restPathMatches "/payments/" "/payments" = false := by
  constructor <;> decide

/-- C3 amended: REST path matching accepts exactly when the paths are
literally equal, or when the matcher path contains a `\x7b` AND the
segment counts (after stripping outer slashes) are equal with every
non-`\x7b...\x7d` segment equal; the claim's concrete examples hold:
`/payments/\x7bid\x7d` matches `/payments/42` and `/payments/abc` but not
`/payments/42/extra`. -/
theorem C3_rest_path_template :
    (∀ matcher_path request_path : String,
      restPathMatches matcher_path request_path =
        ((matcher_path == request_path) ||
         (strContainsChar matcher_path '{' &&
          restSegmentsAccept matcher_path request_path))) ∧
    restPathMatches "/payments/\x7bid\x7d" "/payments/42" = true ∧
    restPathMatches "/payments/\x7bid\x7d" "/payments/abc" = true ∧
    restPathMatches "/payments/\x7bid\x7d" "/payments/42/extra" = false := by
  refine ⟨?_, by decide, by decide, by decide⟩
  intro matcher_path request_path
  cases hq : (matcher_path == request_path) with
  | true => simp [restPathMatches, hq]
  | false =>
    cases hbr : strContainsChar matcher_path '{' with
    | false => simp [restPathMatches, restSegmentsAccept, hq, hbr]
    | true =>
      simp only [restPathMatches, restSegmentsAccept, hq, hbr, Bool.false_or,
        Bool.true_and, Bool.not_true, Bool.false_eq_true, if_false]
      exact guardLenEq _ _ _

/-- Two `continue`-style guards followed by a `return` collapse to one
acceptance conjunction. -/
theorem if_skip2 {α : Type} (A B : Bool) (l r : α) :
    (if A then l else if B then l else r) = (if !A && !B then r else l) := by
  cases A <;> cases B <;> simp

/-- One `continue`-style guard followed by a `return`. -/
theorem if_skip1 {α : Type} (A : Bool) (l r : α) :
    (if A then l else r) = (if !A then r else l) := by
  cases A <;> simp

/-- One iteration of `_match_route`'s loop either returns the head route —
exactly when `routeAccepts` holds — or continues with the tail. -/
theorem matchRouteLoop_cons (server : MockServer) (request : MockRequest)
    (route : MockRoute) (rest : List MockRoute) :
    matchRouteLoop server request (route :: rest) =
      if routeAccepts server.protocol request route.matcher then some route
      else matchRouteLoop server request rest := by
  simp only [matchRouteLoop, routeAccepts]
  cases h1 : (server.protocol == "rest") with
  | true => simp only [if_true]; exact if_skip2 _ _ _ _
  | false =>
    cases h2 : (server.protocol == "soap") with
    | true => simp only [Bool.false_eq_true, if_false, if_true]; exact if_skip2 _ _ _ _
    | false =>
      cases h3 : (server.protocol == "rpc") with
      | true => simp only [Bool.false_eq_true, if_false, if_true]; exact if_skip1 _ _ _
      | false => simp

/-- `_match_route` computes the first route (in declaration order) whose
matcher accepts the request. -/
theorem matchRoute_eq_find (server : MockServer) (request : MockRequest) :
    matchRoute server request =
      server.routes.find? (fun route => routeAccepts server.protocol request route.matcher) := by
  have key : ∀ routes : List MockRoute,
      matchRouteLoop server request routes =
        routes.find? (fun route => routeAccepts server.protocol request route.matcher) := by
    intro routes
    induction routes with
    | nil => rfl
    | cons route rest ih =>
      rw [matchRouteLoop_cons]
      cases h : routeAccepts server.protocol request route.matcher
      · rw [if_neg (by simp [h]), ih, List.find?_cons_of_neg _ (by simp [h])]
      · rw [if_pos (by simp [h]), List.find?_cons_of_pos _ (by simp [h])]
  exact key server.routes

/-- C2 counterexample: "reordering two routes such that only one of them
accepts a given request never changes the match result" fails for
non-adjacent routes.  Under protocol rest with routes A (`/a`), B (`/b`),
C (`/b`) and the request `GET /b`, exactly one of the exchanged pair
\x7bA, C\x7d accepts the request (C does, A does not), yet exchanging A and C
moves the match from B to C. -/
theorem C2_counterexample :
    routeAccepts "rest" { method := "GET", path := "/b" }
      ({ method := some "GET", path := some "/a" } : MockMatcher) = false ∧
    routeAccepts "rest" { method := "GET", path := "/b" }
      ({ method := some "GET", path := some "/b" } : MockMatcher) = true ∧
    (matchRoute
      { name := "s", protocol := "rest",
        routes := [
          { operation := "route-a", matcher := { method := some "GET", path := some "/a" }, response := {} },
          { operation := "route-b", matcher := { method := some "GET", path := some "/b" }, response := {} },
          { operation := "route-c", matcher := { method := some "GET", path := some "/b" }, response := {} }] }
      { method := "GET", path := "/b" }).map MockRoute.operation = some "route-b" ∧
    (matchRoute
      { name := "s", protocol := "rest",
        routes := [
          { operation := "route-c", matcher := { method := some "GET", path := some "/b" }, response := {} },
          { operation := "route-b", matcher := { method := some "GET", path := some "/b" }, response := {} },
          { operation := "route-a", matcher := { method := some "GET", path := some "/a" }, response := {} }] }
      { method := "GET", path := "/b" }).map MockRoute.operation = some "route-c" := by
  refine ⟨by decide, by decide, rfl, rfl⟩

/-- C2 amended: `_match_route` is a function of its two arguments
(deterministic by construction) and returns the first route in declaration
order whose matcher accepts the request; consequently, reordering two
ADJACENT routes of which at most one accepts a given request never changes
the match result for that request (for non-adjacent routes this can fail
when a route between them also accepts, as the counterexample shows). -/
theorem C2_first_match_and_adjacent_swap (server : MockServer)
    (request : MockRequest) (pre post : List MockRoute) (a b : MockRoute)
    (hone : ¬(routeAccepts server.protocol request a.matcher = true ∧
              routeAccepts server.protocol request b.matcher = true)) :
    matchRoute server request =
      server.routes.find? (fun route => routeAccepts server.protocol request route.matcher) ∧
    matchRoute { server with routes := pre ++ a :: b :: post } request =
      matchRoute { server with routes := pre ++ b :: a :: post } request := by
  refine ⟨matchRoute_eq_find server request, ?_⟩
  rw [matchRoute_eq_find, matchRoute_eq_find]
  simp only [List.find?_append]
  congr 1
  cases ha : routeAccepts server.protocol request a.matcher <;>
    cases hb : routeAccepts server.protocol request b.matcher
  · rw [List.find?_cons_of_neg _ (by simp [ha]), List.find?_cons_of_neg _ (by simp [hb]),
        List.find?_cons_of_neg _ (by simp [hb]), List.find?_cons_of_neg _ (by simp [ha])]
  · rw [List.find?_cons_of_neg _ (by simp [ha]), List.find?_cons_of_pos _ (by simp [hb]),
        List.find?_cons_of_pos _ (by simp [hb])]
  · rw [List.find?_cons_of_pos _ (by simp [ha]), List.find?_cons_of_neg _ (by simp [hb]),
        List.find?_cons_of_pos _ (by simp [ha])]
  · exact absurd ⟨ha, hb⟩ hone

/-- Witness for C2 at concrete input: swapping two adjacent rest routes of
which only the second accepts `GET /b` leaves the match unchanged. -/
theorem C2_witness :
    matchRoute
      { name := "s", protocol := "rest",
        routes := [] ++
          { operation := "route-a", matcher := { path := some "/a" }, response := {} } ::
          { operation := "route-b", matcher := { path := some "/b" }, response := {} } ::
          [{ operation := "route-z", matcher := { path := some "/b" }, response := {} }] }
      { method := "GET", path := "/b" } =
    matchRoute
      { name := "s", protocol := "rest",
        routes := [] ++
          { operation := "route-b", matcher := { path := some "/b" }, response := {} } ::
          { operation := "route-a", matcher := { path := some "/a" }, response := {} } ::
          [{ operation := "route-z", matcher := { path := some "/b" }, response := {} }] }
      { method := "GET", path := "/b" } :=
  (C2_first_match_and_adjacent_swap
    { name := "s", protocol := "rest",
      routes := [] ++
        { operation := "route-a", matcher := { path := some "/a" }, response := {} } ::
        { operation := "route-b", matcher := { path := some "/b" }, response := {} } ::
        [{ operation := "route-z", matcher := { path := some "/b" }, response := {} }] }
    { method := "GET", path := "/b" } []
    [{ operation := "route-z", matcher := { path := some "/b" }, response := {} }]
    { operation := "route-a", matcher := { path := some "/a" }, response := {} }
    { operation := "route-b", matcher := { path := some "/b" }, response := {} }
    (by decide)).2

/-- Python's `max(a, b)` agrees with the order-theoretic `max`. -/
theorem pyMax_eq_max (a b : Int) : pyMax a b = max a b := by
  by_cases h : a < b
  · rw [pyMax, if_pos h, max_eq_right h.le]
  · rw [pyMax, if_neg h, max_eq_left (le_of_not_lt h)]

/-- C7 counterexample: the claim says the listener responds "with the
route's declared status" for every matched route, but
`status_code = response.status or 200` replaces a declared status of 0
(falsy in Python) by 200. -/
theorem C7_counterexample :
    ({ operation := "zero-status", matcher := {}, response := { status := 0 } } : MockRoute).response.status = 0 ∧
    (respondWithRoute "rest"
      { operation := "zero-status", matcher := {}, response := { status := 0 } }
      false).status = 200 :=
  ⟨rfl, rfl⟩

/-- C7 amended: on a match the listener sleeps `max(latency_ms, 0)`
milliseconds, responds with the route's declared status except that a
declared status of 0 (falsy) is replaced by 200, sends the
protocol-default Content-Type (`application/json` for rest/rpc, `text/xml`
for soap) overridden by the route's explicit headers on conflict, appends
a Content-Length equal to the UTF-8 byte length of the encoded body, and
emits the body JSON-serialized when it is a dict or list and verbatim when
it is already a string. -/
theorem C7_matched_response_shape (protocol : String) (route : MockRoute)
    (head_only : Bool) :
    (respondWithRoute protocol route head_only).slept_ms = max route.response.latency_ms 0 ∧
    (route.response.status ≠ 0 →
      (respondWithRoute protocol route head_only).status = route.response.status) ∧
    (route.response.status = 0 →
      (respondWithRoute protocol route head_only).status = 200) ∧
    (respondWithRoute protocol route head_only).headers.lookup "Content-Type" =
      some ((route.response.headers.lookup "Content-Type").getD (contentType protocol)) ∧
    contentType "rest" = "application/json" ∧
    contentType "rpc" = "application/json" ∧
    contentType "soap" = "text/xml" ∧
    ("Content-Length", toString (utf8Len (renderBody protocol route.response))) ∈
      (respondWithRoute protocol route head_only).headers ∧
    (head_only = false →
      (respondWithRoute protocol route head_only).body = renderBody protocol route.response) ∧
    (∀ s, route.response.body = .vstr s → renderBody protocol route.response = s) ∧
    (∀ kvs, route.response.body = .vdict kvs →
      renderBody protocol route.response = jsonDumps (.vdict kvs)) ∧
    (∀ xs, route.response.body = .vlist xs →
      renderBody protocol route.response = jsonDumps (.vlist xs)) := by
  refine ⟨?_, ?_, ?_, ?_, rfl, rfl, rfl, ?_, ?_, ?_, ?_, ?_⟩
  · simp [respondWithRoute, pyMax_eq_max]
  · intro h
    have hb : (route.response.status == 0) = false := by
      simpa using h
    simp [respondWithRoute, hb]
  · intro h
    simp [respondWithRoute, h]
  · simp [respondWithRoute, dictUpdate, List.lookup]
  · simp [respondWithRoute]
  · intro h
    simp [respondWithRoute, h]
  · intro s h
    simp [renderBody, h]
  · intro kvs h
    simp [renderBody, h]
  · intro xs h
    simp [renderBody, h]

/-- Witness for C7 at a concrete soap route: declared status 503, latency
50ms, a string body emitted verbatim. -/
theorem C7_witness :
    (respondWithRoute "soap"
      { operation := "op", matcher := {},
        response := { status := 503, headers := [("X-Extra", "1")],
                      body := .vstr "<Envelope/>", latency_ms := 50 } }
      false).status = 503 ∧
    (respondWithRoute "soap"
      { operation := "op", matcher := {},
        response := { status := 503, headers := [("X-Extra", "1")],
                      body := .vstr "<Envelope/>", latency_ms := 50 } }
      false).slept_ms = max (50 : Int) 0 ∧
    (respondWithRoute "soap"
      { operation := "op", matcher := {},
        response := { status := 503, headers := [("X-Extra", "1")],
                      body := .vstr "<Envelope/>", latency_ms := 50 } }
      false).body = "<Envelope/>" := by
  have h := C7_matched_response_shape "soap"
    { operation := "op", matcher := {},
      response := { status := 503, headers := [("X-Extra", "1")],
                    body := .vstr "<Envelope/>", latency_ms := 50 } }
    false
  refine ⟨h.2.1 (by decide), h.1, ?_⟩
  rw [h.2.2.2.2.2.2.2.2.1 rfl]
  exact h.2.2.2.2.2.2.2.2.2.1 "<Envelope/>" rfl

/-- C8: the Step Executor takes request headers from the payload's
`headers` field when the payload is a dict containing one (a dict-valued
one, stringified as `\x7bstr(key): str(value)\x7d`) and none otherwise; the body
comes from the payload's `body` field and is omitted entirely for GET
(whatever the payload), JSON-encoded when it is a dict or list, and sent
verbatim (its UTF-8 bytes, modelled by the string) when it is already a
string. -/
theorem C8_headers_and_body (method : String) (payload : Value) :
    (∀ kvs h, payload = .vdict kvs → kvs.lookup "headers" = some (.vdict h) →
      extractHeaders payload = h.toPairs.map (fun kv => (kv.1, pyStr kv.2))) ∧
    (∀ kvs, payload = .vdict kvs → (∀ h, kvs.lookup "headers" ≠ some (.vdict h)) →
      extractHeaders payload = []) ∧
    ((∀ kvs, payload ≠ .vdict kvs) → extractHeaders payload = []) ∧
    encodeBody "GET" payload = none ∧
    (method ≠ "GET" → ∀ kvs d, payload = .vdict kvs → kvs.lookup "body" = some (.vdict d) →
      encodeBody method payload = some (jsonDumps (.vdict d))) ∧
    (method ≠ "GET" → ∀ kvs xs, payload = .vdict kvs → kvs.lookup "body" = some (.vlist xs) →
      encodeBody method payload = some (jsonDumps (.vlist xs))) ∧
    (method ≠ "GET" → ∀ kvs s, payload = .vdict kvs → kvs.lookup "body" = some (.vstr s) →
      encodeBody method payload = some s) := by
  have hget : ∀ m : String, m ≠ "GET" → (m == "GET") = false := by
    intro m hm; simpa using hm
  refine ⟨?_, ?_, ?_, ?_, ?_, ?_, ?_⟩
  · intro kvs h hp hlk
    simp [extractHeaders, hp, hlk]
  · intro kvs hp hlk
    subst hp
    cases hv : kvs.lookup "headers" with
    | none => simp [extractHeaders, hv]
    | some v =>
      cases v with
      | vdict h => exact absurd hv (hlk h)
      | vnull => simp [extractHeaders, hv]
      | vbool b => simp [extractHeaders, hv]
      | vint n => simp [extractHeaders, hv]
      | vstr s => simp [extractHeaders, hv]
      | vlist xs => simp [extractHeaders, hv]
  · intro hp
    cases payload with
    | vdict kvs => exact absurd rfl (hp kvs)
    | vnull => rfl
    | vbool b => rfl
    | vint n => rfl
    | vstr s => rfl
    | vlist xs => rfl
  · simp [encodeBody]
  · intro hm kvs d hp hlk
    simp [encodeBody, hget method hm, hp, hlk]
  · intro hm kvs xs hp hlk
    simp [encodeBody, hget method hm, hp, hlk]
  · intro hm kvs s hp hlk
    simp [encodeBody, hget method hm, hp, hlk]

/-- Witness for C8 at a concrete POST payload carrying a headers dict and
a structured body. -/
theorem C8_witness :
    extractHeaders (.vdict (.cons "headers" (.vdict (.cons "X-Test" (.vstr "1") (.cons "X-N" (.vint 2) .nil)))
        (.cons "body" (.vdict (.cons "amount" (.vint 5) .nil)) .nil))) =
      [("X-Test", "1"), ("X-N", "2")] ∧
    encodeBody "POST" (.vdict (.cons "headers" (.vdict (.cons "X-Test" (.vstr "1") (.cons "X-N" (.vint 2) .nil)))
        (.cons "body" (.vdict (.cons "amount" (.vint 5) .nil)) .nil))) =
      some "\x7b\"amount\": 5\x7d" ∧
    encodeBody "GET" (.vdict (.cons "headers" (.vdict (.cons "X-Test" (.vstr "1") (.cons "X-N" (.vint 2) .nil)))
        (.cons "body" (.vdict (.cons "amount" (.vint 5) .nil)) .nil))) = none := by
  have h := C8_headers_and_body "POST"
    (.vdict (.cons "headers" (.vdict (.cons "X-Test" (.vstr "1") (.cons "X-N" (.vint 2) .nil)))
        (.cons "body" (.vdict (.cons "amount" (.vint 5) .nil)) .nil)))
  refine ⟨?_, ?_, h.2.2.2.1⟩
  · exact (h.1 _ _ rfl rfl).trans rfl
  · exact (h.2.2.2.2.1 (by decide) _ _ rfl rfl).trans rfl

/-- C5 counterexample: the claim says any clause text other than the two
recognized forms is "ignored without error", but `status == abc` — which is
not of the form `status == <int>` — raises `ValueError` from `int("abc")`
(the remainder after the first `==` is stripped before `int()`) instead of
being ignored: the step fails rather than passing. -/
theorem C5_counterexample :
    validateAssertions "s1" { status_code := 200, elapsed_ms := 1 } ["status == abc"] =
      .error ("invalid literal for int() with base 10: 'abc'") ∧
    validateAssertions "s1" { status_code := 200, elapsed_ms := 1 } ["status == abc"] ≠
      .ok () := by
  refine ⟨by decide, by decide⟩

/-- C5 amended: clause recognition is by PREFIX of the stripped text.  A
clause starting with `status ==` strips the remainder after the first
`==` and parses it with `int(...)`:
on parse success it fails iff the status differs (raising immediately with
the mismatch message, whatever clauses follow), on parse failure the
`ValueError` propagates (it is not ignored).  A clause starting with
`response_time_ms <` strips the remainder after the first `<` and parses
it with `float(...)`: it fails iff
the elapsed time is greater than or equal to the threshold
(strictly-below passes).  A clause matching neither prefix is ignored
without error, and an empty clause list passes. -/
theorem C5_assertion_grammar (step_name : String) (ex : ExecutionResult)
    (clause : String) (rest : List String) :
    (validateAssertions step_name ex [] = .ok ()) ∧
    (¬ pyStartsWith (pyStripWs clause) "status ==" = true →
     ¬ pyStartsWith (pyStripWs clause) "response_time_ms <" = true →
      validateAssertions step_name ex (clause :: rest) =
        validateAssertions step_name ex rest) ∧
    (∀ n, pyStartsWith (pyStripWs clause) "status ==" = true →
      pyInt (pyStripWs (pyDrop (pyStripWs clause) 9)) = .ok n →
      (ex.status_code = n →
        validateAssertions step_name ex (clause :: rest) =
          validateAssertions step_name ex rest) ∧
      (ex.status_code ≠ n →
        validateAssertions step_name ex (clause :: rest) =
          .error (statusFailMsg step_name n ex.status_code))) ∧
    (∀ e, pyStartsWith (pyStripWs clause) "status ==" = true →
      pyInt (pyStripWs (pyDrop (pyStripWs clause) 9)) = .error e →
      validateAssertions step_name ex (clause :: rest) = .error e) ∧
    (∀ t, pyStartsWith (pyStripWs clause) "status ==" = false →
      pyStartsWith (pyStripWs clause) "response_time_ms <" = true →
      pyFloat (pyStripWs (pyDrop (pyStripWs clause) 18)) = .ok t →
      (ex.elapsed_ms < t →
        validateAssertions step_name ex (clause :: rest) =
          validateAssertions step_name ex rest) ∧
      (t ≤ ex.elapsed_ms →
        validateAssertions step_name ex (clause :: rest) =
          .error (timeFailMsg step_name t))) := by
  refine ⟨rfl, ?_, ?_, ?_, ?_⟩
  · intro h1 h2
    rw [Bool.not_eq_true] at h1 h2
    simp [validateAssertions, h1, h2]
  · intro n h1 hparse
    constructor
    · intro heq
      simp [validateAssertions, h1, hparse, heq]
    · intro hne
      simp [validateAssertions, h1, hparse, hne]
  · intro e h1 hparse
    simp [validateAssertions, h1, hparse]
  · intro t h1 h2 hparse
    constructor
    · intro hlt
      simp [validateAssertions, h1, h2, hparse, not_le.mpr hlt]
    · intro hge
      simp [validateAssertions, h1, h2, hparse, hge]

/-- Witness for C5: against a 500 response, the first clause
`status == 200` raises the mismatch error immediately; the following
clause (which would pass) does not change the result. -/
theorem C5_witness :
    validateAssertions "w" { status_code := 500, elapsed_ms := 10 }
      ["status == 200", "status == 500"] =
      .error (statusFailMsg "w" 200 500) := by
  have h := C5_assertion_grammar "w" { status_code := 500, elapsed_ms := 10 }
    "status == 200" ["status == 500"]
  exact (h.2.2.1 200 (by decide) (by decide)).2 (by decide)

/-- With a transport-failing network (every request raises `URLError`), a
step whose payload reference is falsy produces an ordinary FAILED
StepResult: the `RuntimeError` (or the unsupported-protocol error) is
raised inside `_execute_step`'s try block and converted, never escaping. -/
theorem executeStep_url_error (net : NetOracle) (parsers : Parsers)
    (fs : String → Option String) (base_dir base_url : String)
    (scenario : Scenario) (step : ScenarioStep) (idx : Nat)
    (reason : String) (elapsed : ℚ)
    (hnet : ∀ r, net r = (.url_error reason, elapsed))
    (hp : truthyStr step.request.payload = false) :
    ∃ msg, executeStep net parsers fs base_dir base_url scenario step idx =
      .ok { step_index := idx, step_name := step.name, status := "failed",
            assertions := step.assertions, error := some msg } := by
  have hload : loadPayload fs parsers base_dir step.request.payload = .ok (.vnull, none) := by
    simp [loadPayload, hp]
  cases hd : (pyLower (orElseStr step.protocol (orElseStr scenario.protocol "")) == "openapi"
      || pyLower (orElseStr step.protocol (orElseStr scenario.protocol "")) == "rest"
      || pyLower (orElseStr step.protocol (orElseStr scenario.protocol "")) == "http") with
  | true =>
    refine ⟨"HTTP request failed for " ++ pyUpper step.request.method ++ " " ++
      buildUrl base_url (if truthyStr step.request.path then step.request.path.getD "" else "/") ++
      ": " ++ reason, ?_⟩
    simp [executeStep, hload, executeWithProtocol, hd, httpExecute, performRequest, hnet,
      Bind.bind, Except.bind]
  | false =>
    refine ⟨"Protocol '" ++ step.protocol ++ "' is not supported", ?_⟩
    simp [executeStep, hload, executeWithProtocol, hd, Bind.bind, Except.bind]

/-- With a transport-failing network, the run loop never aborts: it
returns one StepResult per step, each failed. -/
theorem runSteps_url_error (net : NetOracle) (parsers : Parsers)
    (fs : String → Option String) (base_dir base_url : String)
    (scenario : Scenario) (reason : String) (elapsed : ℚ)
    (hnet : ∀ r, net r = (.url_error reason, elapsed)) :
    ∀ (steps : List ScenarioStep) (idx : Nat),
      (∀ s ∈ steps, truthyStr s.request.payload = false) →
      ∃ results, runSteps net parsers fs base_dir base_url scenario idx steps = .ok results ∧
        results.length = steps.length ∧
        (∀ r ∈ results, r.status = "failed") := by
  intro steps
  induction steps with
  | nil => exact fun idx _ => ⟨[], rfl, rfl, by simp⟩
  | cons s rest ih =>
    intro idx hsteps
    obtain ⟨msg, hstep⟩ := executeStep_url_error net parsers fs base_dir base_url
      scenario s idx reason elapsed hnet (hsteps s (by simp))
    obtain ⟨results, hrun, hlen, hall⟩ := ih (idx + 1) (fun t ht => hsteps t (by simp [ht]))
    refine ⟨{ step_index := idx, step_name := s.name, status := "failed",
              assertions := s.assertions, error := some msg } :: results, ?_, by simp [hlen], ?_⟩
    · simp [runSteps, hstep, hrun]
    · intro r hr
      rcases List.mem_cons.mp hr with h | h
      · rw [h]
      · exact hall r h

/-- C9: an HTTP response with a 4xx/5xx status (an `HTTPError` from
`urlopen`) is NOT a failure at the Step Executor layer — it comes back as
an ordinary ExecutionResult carrying the status code, elapsed time and raw
body, for the assertion evaluator to judge; whereas a transport-level
failure (`URLError`: connection refused, DNS failure) raises a
`RuntimeError` that the Scenario Runner catches inside `_execute_step`,
recording a failed StepResult, and the run visits every remaining step. -/
theorem C9_http_error_vs_transport :
    (∀ (net : NetOracle) (base_url : String) (step : ScenarioStep) (payload : Value)
       (code : Int) (body : String) (elapsed : ℚ),
      (∀ r, net r = (.http_error code body, elapsed)) →
      httpExecute net base_url step payload =
        .ok { status_code := code, elapsed_ms := elapsed, response_body := some body }) ∧
    (∀ (net : NetOracle) (parsers : Parsers) (fs : String → Option String)
       (base_dir base_url : String) (scenario : Scenario) (step : ScenarioStep)
       (idx : Nat) (reason : String) (elapsed : ℚ),
      (∀ r, net r = (.url_error reason, elapsed)) →
      truthyStr step.request.payload = false →
      ∃ msg, executeStep net parsers fs base_dir base_url scenario step idx =
        .ok { step_index := idx, step_name := step.name, status := "failed",
              assertions := step.assertions, error := some msg }) ∧
    (∀ (net : NetOracle) (parsers : Parsers) (fs : String → Option String)
       (base_dir base_url : String) (scenario : Scenario) (reason : String)
       (elapsed : ℚ) (steps : List ScenarioStep) (idx : Nat),
      (∀ r, net r = (.url_error reason, elapsed)) →
      (∀ s ∈ steps, truthyStr s.request.payload = false) →
      ∃ results, runSteps net parsers fs base_dir base_url scenario idx steps = .ok results ∧
        results.length = steps.length ∧
        (∀ r ∈ results, r.status = "failed")) := by
  refine ⟨?_, ?_, ?_⟩
  · intro net base_url step payload code body elapsed hnet
    simp [httpExecute, performRequest, hnet]
  · intro net parsers fs base_dir base_url scenario step idx reason elapsed hnet hp
    exact executeStep_url_error net parsers fs base_dir base_url scenario step idx
      reason elapsed hnet hp
  · intro net parsers fs base_dir base_url scenario reason elapsed steps idx hnet hsteps
    exact runSteps_url_error net parsers fs base_dir base_url scenario reason elapsed
      hnet steps idx hsteps

/-- Witness for C9: a constant-503 network yields an ordinary result for
the executor; a constant-`URLError` network yields a completed 2-step run
with two failed results. -/
theorem C9_witness :
    httpExecute (fun _ => (.http_error 503 "boom", 3)) "http://h"
      { name := "s1", protocol := "openapi", request := { method := "GET", path := some "/x" } }
      .vnull =
      .ok { status_code := 503, elapsed_ms := 3, response_body := some "boom" } ∧
    (∃ results, runSteps (fun _ => (.url_error "refused", 2))
        { yaml_load := fun _ => .vnull, json_loads := fun _ => .error "bad" }
        (fun _ => none) "bundle" "http://h"
        { scenario_id := "sc", service := "svc", version := "v1", protocol := "openapi",
          steps := [] } 1
        [{ name := "s1", protocol := "openapi", request := { method := "GET", path := some "/x" } },
         { name := "s2", protocol := "openapi", request := { method := "POST", path := some "/y" } }] =
        .ok results ∧
      results.length = 2 ∧
      (∀ r ∈ results, r.status = "failed")) := by
  constructor
  · exact C9_http_error_vs_transport.1 _ _ _ _ 503 "boom" 3 (fun _ => rfl)
  · exact C9_http_error_vs_transport.2.2 _ _ _ _ _ _ "refused" 2 _ 1
      (fun _ => rfl) (by intro s hs; fin_cases hs <;> rfl)

/-- C1 (code bug, demonstrated on the embedded code): the claim — and the
spec, twice — says a missing payload file is fatal for that step only,
producing a failed StepResult while subsequent steps still run.  In the
source, however, `_load_payload` is called BEFORE the `try`/`except`
block of `_execute_step` (runner.py line 120 vs 135), so the
`FileNotFoundError` escapes `_execute_step`, and `ScenarioRunner.run`'s
step loop wraps the calls only in `try`/`finally`: the exception aborts
the whole run.  Here: a 2-step scenario whose first step references a
payload file absent from the filesystem oracle ends as the propagated
error, with no StepResult recorded for step 1 and step 2 never executed
(errors raised INSIDE the try block, by contrast, do produce failed
StepResults and let the run complete). -/
theorem C1_missing_payload_aborts_run :
    runScenario (fun _ => (.success 200 "\x7b\x7d", 1))
      { yaml_load := fun _ => .vnull, json_loads := fun _ => .error "bad" }
      (fun _ => none) "bundle" "http://127.0.0.1:9101"
      { scenario_id := "sc", service := "svc", version := "v1", protocol := "openapi",
        steps := [
          { name := "step-1", protocol := "openapi",
            request := { method := "GET", path := some "/ok",
                         payload := some "payloads/missing.json" } },
          { name := "step-2", protocol := "openapi",
            request := { method := "GET", path := some "/ok" } }] } =
      .error "Payload file not found: bundle/payloads/missing.json" := by
  rfl
